import Mathlib

set_option maxHeartbeats 1000000

/-!
Shallow embedding of the core of the GW2 TeamSpeak plugin (src/src/plugin.cpp).

The polling loop `mumbleLinkCheckLoop` is embedded as a per-tick transition
function `mumbleLinkTick` over an explicit tracker state.  External
collaborators (the Mumble Link reader, the map data source, the world name
source, the closest-waypoint search) are supplied as fields of the per-tick
input, so one tick of the loop is a pure function of the previous state and
the tick input.  Parts of the repository that plugin.cpp calls but whose
sources sit in other translation units (the geometry helpers, the remote
info container, the record clearing constructor, the command payload
decoder) are modelled from the specification and say so in their doc
comments.  Timestamps are integers (time_t seconds) and the double valued
coordinates of the feed are rationals, so every definition is executable.
-/

/-- A 2D vector of the feed, double precision in the source, rational here. -/
structure Vector2D where
  x : ℚ
  y : ℚ
  deriving DecidableEq

/-- A 3D vector of the feed (the raw avatar position). -/
structure Vector3D where
  x : ℚ
  y : ℚ
  z : ℚ
  deriving DecidableEq

/-- Modelled from the spec: the projection from 3D to 2D used by
gw2mathutils, dropping one axis (the vertical axis of the feed). -/
def Vector3D.toVector2D (v : Vector3D) : Vector2D :=
  ⟨v.x, v.z⟩

/-- Squared Euclidean distance between two 2D vectors. -/
def getDistanceSq (a b : Vector2D) : ℚ :=
  (a.x - b.x) * (a.x - b.x) + (a.y - b.y) * (a.y - b.y)

/-- Modelled from the spec: the comparison getDistance(a, b) >= t on the
Euclidean distance of gw2mathutils.  It is expressed through squares so
that it stays in exact rational arithmetic; for every threshold t the two
forms are equivalent because the Euclidean distance is the nonnegative
square root of `getDistanceSq`. -/
def distanceAtLeast (a b : Vector2D) (t : ℚ) : Bool :=
  decide (t ≤ 0 ∨ t * t ≤ getDistanceSq a b)

/-- An axis-aligned rectangle, as used for map_rect and continent_rect. -/
structure Rect where
  x1 : ℚ
  y1 : ℚ
  x2 : ℚ
  y2 : ℚ
  deriving DecidableEq

def Rect.width (r : Rect) : ℚ := r.x2 - r.x1

def Rect.height (r : Rect) : ℚ := r.y2 - r.y1

/-- Modelled from the spec: the affine transform of Gw2Position
toContinentPosition from the map rectangle in feed space to the continent
rectangle, with the vertical axis inverted; a degenerate (zero extent) map
rectangle yields an error result (`none`) instead of a position.  The
optional unit-scale constant of the Mumble source space is left at one
since the spec does not fix its value; no claim depends on it. -/
def toContinentPosition (p : Vector3D) (mapRect continentRect : Rect) : Option Vector2D :=
  if mapRect.width = 0 ∨ mapRect.height = 0 then none
  else
    some ⟨continentRect.x1 + (p.toVector2D.x - mapRect.x1) * (continentRect.width / mapRect.width),
          continentRect.y1 + (mapRect.y2 - p.toVector2D.y) * (continentRect.height / mapRect.height)⟩

/-- The identity snapshot read from the Mumble Link feed.  Equality is
structural, per the spec. -/
structure MumbleIdentity where
  name : String
  profession : Nat
  map_id : Nat
  world_id : Nat
  team_color_id : Nat
  commander : Bool
  deriving DecidableEq

/-- The map record returned by the external map data source. -/
structure MapEntry where
  map_name : String
  region_id : Nat
  region_name : String
  continent_id : Nat
  continent_name : String
  map_rect : Rect
  continent_rect : Rect
  deriving DecidableEq

/-- A point of interest as returned by the closest-waypoint search. -/
structure PointOfInterestEntry where
  poi_id : Nat
  name : String
  coord : Vector2D
  deriving DecidableEq

/-- The presence record, with exactly the fields plugin.cpp populates. -/
structure Gw2Info where
  characterName : String
  profession : Nat
  mapId : Nat
  mapName : String
  regionId : Nat
  regionName : String
  continentId : Nat
  continentName : String
  worldId : Nat
  worldName : String
  teamColorId : Nat
  commander : Bool
  characterContinentPosition : Vector2D
  waypointId : Nat
  waypointName : String
  waypointContinentPosition : Vector2D
  deriving DecidableEq

/-- Modelled from the spec: Gw2Info.clear() (its body lives in gw2info.cpp)
produces the fully cleared record, every numeric field zero, every string
empty, positions at the origin; the same record is the freshly constructed
one at tracker start. -/
def emptyGw2Info : Gw2Info :=
  { characterName := ""
    profession := 0
    mapId := 0
    mapName := ""
    regionId := 0
    regionName := ""
    continentId := 0
    continentName := ""
    worldId := 0
    worldName := ""
    teamColorId := 0
    commander := false
    characterContinentPosition := ⟨0, 0⟩
    waypointId := 0
    waypointName := ""
    waypointContinentPosition := ⟨0, 0⟩ }

/-- Modelled from the spec: the three configured thresholds of Globals
(globals.cpp is a separate translation unit).  Time thresholds are in
seconds, the distance threshold in feed units. -/
structure Config where
  onlineStateTransmissionThreshold : Int
  locationTransmissionThreshold : Int
  distanceTransmissionThreshold : ℚ

/-- The state the loop carries across ticks: the local variables of
mumbleLinkCheckLoop plus the module level gw2Info record. -/
structure TrackerState where
  lastTransmissionTime : Int
  lastOffline : Int
  linked : Bool
  prevIsOnline : Bool
  prevIdentity : MumbleIdentity
  prevAvatarPosition : Vector3D
  prevDistancePosition : Vector2D
  gw2Info : Gw2Info
  deriving DecidableEq

/-- Everything one tick observes from the outside world: the clock, the
two link flags, the identity and position snapshots, and the results the
external map, world name and waypoint collaborators would return during
this tick. -/
structure TickInput where
  now : Int
  isActive : Bool
  isGW2 : Bool
  identity : MumbleIdentity
  avatarPosition : Vector3D
  getMap : Nat → Option MapEntry
  getWorldNames : Option (Nat → Option String)
  getClosestWaypoint : Vector2D → Nat → Option PointOfInterestEntry

/-- The state at the top of mumbleLinkCheckLoop: timestamps zero, not
linked, previous flags false, default snapshots, empty record. -/
def initialTrackerState : TrackerState :=
  { lastTransmissionTime := 0
    lastOffline := 0
    linked := false
    prevIsOnline := false
    prevIdentity := ⟨"", 0, 0, 0, 0, false⟩
    prevAvatarPosition := ⟨0, 0, 0⟩
    prevDistancePosition := ⟨0, 0⟩
    gw2Info := emptyGw2Info }

/-- newIsOnline of the loop: isActive() and isGW2() of the Mumble Link. -/
def rawOnlineOf (inp : TickInput) : Bool :=
  inp.isActive && inp.isGW2

/-- The first part of the identity block (plugin.cpp lines 422 to 427):
copy the fields of the new identity snapshot into the record. -/
def copyIdentityFields (info : Gw2Info) (newIdentity : MumbleIdentity) : Gw2Info :=
  { info with
      characterName := newIdentity.name
      profession := newIdentity.profession
      mapId := newIdentity.map_id
      worldId := newIdentity.world_id
      teamColorId := newIdentity.team_color_id
      commander := newIdentity.commander }

/-- The map lookup of the identity block (plugin.cpp lines 433 to 446):
resolve map, region and continent names through the map source, with the
synthesized fallback names when the source has no entry. -/
def resolveMapNames (inp : TickInput) (info : Gw2Info) : Gw2Info :=
  match inp.getMap info.mapId with
  | some m =>
    { info with
        mapName := m.map_name
        regionId := m.region_id
        regionName := m.region_name
        continentId := m.continent_id
        continentName := m.continent_name }
  | none =>
    { info with
        mapName := "Map " ++ toString info.mapId
        regionId := 0
        regionName := "Unknown region"
        continentId := 0
        continentName := "Unknown continent" }

/-- The world name lookup of the identity block (plugin.cpp lines 449 to
454): resolve the world name, with the synthesized fallback when the
source fails or lacks the world id. -/
def resolveWorldName (inp : TickInput) (info : Gw2Info) : Gw2Info :=
  match inp.getWorldNames with
  | some wn =>
    match wn info.worldId with
    | some nm => { info with worldName := nm }
    | none => { info with worldName := "World " ++ toString info.worldId }
  | none => { info with worldName := "World " ++ toString info.worldId }

/-- The identity block of the loop (plugin.cpp lines 419 to 454): copy the
identity fields into the record, then resolve map, region and continent
names, then resolve the world name. -/
def applyIdentity (inp : TickInput) (info : Gw2Info) (newIdentity : MumbleIdentity) : Gw2Info :=
  resolveWorldName inp (resolveMapNames inp (copyIdentityFields info newIdentity))

/-- The continent position part of the position block (plugin.cpp lines
466 to 472): if the map source yields the current map and the transform
succeeds, store the continent position, otherwise keep the previous one. -/
def resolveContinentPosition (inp : TickInput) (info : Gw2Info) (newAvatarPosition : Vector3D) : Gw2Info :=
  match inp.getMap info.mapId with
  | some m =>
    match toContinentPosition newAvatarPosition m.map_rect m.continent_rect with
    | some p => { info with characterContinentPosition := p }
    | none => info
  | none => info

/-- The waypoint part of the position block (plugin.cpp lines 476 to 489):
redo the closest waypoint search from the current continent position. -/
def resolveClosestWaypoint (inp : TickInput) (info : Gw2Info) : Gw2Info :=
  match inp.getClosestWaypoint info.characterContinentPosition info.mapId with
  | some w =>
    { info with
        waypointId := w.poi_id
        waypointName := if w.name ≠ "" then w.name else "Waypoint " ++ toString w.poi_id
        waypointContinentPosition := w.coord }
  | none =>
    { info with
        waypointId := 0
        waypointName := ""
        waypointContinentPosition := ⟨0, 0⟩ }

/-- The position block of the loop (plugin.cpp lines 462 to 489): the
continent position update followed by the waypoint search. -/
def applyPosition (inp : TickInput) (info : Gw2Info) (newAvatarPosition : Vector3D) : Gw2Info :=
  resolveClosestWaypoint inp (resolveContinentPosition inp info newAvatarPosition)

/-- The condition under which the identity block marks the record dirty:
the identity changed and the time since the last transmission reached the
location transmission threshold. -/
def identityDirty (cfg : Config) (s : TrackerState) (inp : TickInput) : Bool :=
  decide (inp.identity ≠ s.prevIdentity ∧
    cfg.locationTransmissionThreshold ≤ inp.now - s.lastTransmissionTime)

/-- The condition under which the position block marks the record dirty and
moves the transmitted baseline: the position changed, the time since the
last transmission reached the location transmission threshold, and the
displacement from the last transmitted 2D position reached the distance
transmission threshold. -/
def positionDirty (cfg : Config) (s : TrackerState) (inp : TickInput) : Bool :=
  decide (inp.avatarPosition ≠ s.prevAvatarPosition ∧
    cfg.locationTransmissionThreshold ≤ inp.now - s.lastTransmissionTime ∧
    distanceAtLeast inp.avatarPosition.toVector2D s.prevDistancePosition
      cfg.distanceTransmissionThreshold = true)

/-- The online branch of one loop iteration (plugin.cpp lines 409 to 500):
the link check against the remembered offline timestamp, the reset of that
timestamp, the identity block, the position block, the baseline move, and
the unconditional refresh of the previous snapshots.  Returns the next
state and the updated flag. -/
def onlineStep (cfg : Config) (s : TrackerState) (inp : TickInput) : TrackerState × Bool :=
  ⟨{ lastTransmissionTime := s.lastTransmissionTime
     lastOffline := 0
     linked :=
       if s.prevIsOnline = false ∧
           cfg.onlineStateTransmissionThreshold ≤ inp.now - s.lastOffline then true
       else s.linked
     prevIsOnline := true
     prevIdentity := inp.identity
     prevAvatarPosition := inp.avatarPosition
     prevDistancePosition :=
       if positionDirty cfg s inp = true then inp.avatarPosition.toVector2D
       else s.prevDistancePosition
     gw2Info :=
       let info1 :=
         if inp.identity ≠ s.prevIdentity then applyIdentity inp s.gw2Info inp.identity
         else s.gw2Info
       if inp.avatarPosition ≠ s.prevAvatarPosition then applyPosition inp info1 inp.avatarPosition
       else info1 },
   identityDirty cfg s inp || positionDirty cfg s inp⟩

/-- The offline branch of one loop iteration (plugin.cpp lines 501 to 514):
remember the offline timestamp on the first offline tick, and once linked
with the offline threshold exceeded, unlink, clear the record and mark it
dirty. -/
def offlineStep (cfg : Config) (s : TrackerState) (inp : TickInput) : TrackerState × Bool :=
  let lOff := if s.prevIsOnline = true then inp.now else s.lastOffline
  if s.linked = true ∧ cfg.onlineStateTransmissionThreshold ≤ inp.now - lOff then
    ⟨{ s with lastOffline := lOff, linked := false, prevIsOnline := false,
              gw2Info := emptyGw2Info }, true⟩
  else
    ⟨{ s with lastOffline := lOff, prevIsOnline := false }, false⟩

/-- One full iteration of mumbleLinkCheckLoop: the online or offline branch
followed by the transmission step (plugin.cpp lines 517 to 520).  The
second component is the payload broadcast to the server during this tick,
`none` when the record was not dirty. -/
def mumbleLinkTick (cfg : Config) (s : TrackerState) (inp : TickInput) : TrackerState × Option Gw2Info :=
  let r := if rawOnlineOf inp = true then onlineStep cfg s inp else offlineStep cfg s inp
  if r.2 = true then ⟨{ r.1 with lastTransmissionTime := inp.now }, some r.1.gw2Info⟩
  else ⟨r.1, none⟩

/-- Run the loop over a list of tick inputs, collecting every transmitted
payload in order. -/
def runTicks (cfg : Config) (s : TrackerState) : List TickInput → TrackerState × List Gw2Info
  | [] => (s, [])
  | i :: rest =>
    let r := mumbleLinkTick cfg s i
    let rr := runTicks cfg r.1 rest
    (rr.1, r.2.toList ++ rr.2)

/-- A remote presence record: the decoded Gw2Info with its originating
session and participant, as held by the remote info container. -/
structure Gw2RemoteInfo where
  info : Gw2Info
  serverConnectionHandlerID : Nat
  clientID : Nat
  deriving DecidableEq

/-- Modelled from the spec: eviction of the single record keyed by the
(session, participant) pair; the container (gw2info.cpp) keeps at most one
record per key, and eviction of an absent key is a no-op. -/
def removeRemoteGW2InfoRecord : List Gw2RemoteInfo → Nat → Nat → List Gw2RemoteInfo
  | [], _, _ => []
  | e :: t, sid, cid =>
    if e.serverConnectionHandlerID = sid ∧ e.clientID = cid then
      removeRemoteGW2InfoRecord t sid cid
    else e :: removeRemoteGW2InfoRecord t sid cid

/-- Modelled from the spec: bulk eviction of every record of a session. -/
def removeAllRemoteGW2InfoRecords : List Gw2RemoteInfo → Nat → List Gw2RemoteInfo
  | [], _ => []
  | e :: t, sid =>
    if e.serverConnectionHandlerID = sid then removeAllRemoteGW2InfoRecords t sid
    else e :: removeAllRemoteGW2InfoRecords t sid

/-- Modelled from the spec: replace or insert keyed by the record's own
(session, participant) pair. -/
def updateRemoteGW2Info (c : List Gw2RemoteInfo) (r : Gw2RemoteInfo) : List Gw2RemoteInfo :=
  r :: removeRemoteGW2InfoRecord c r.serverConnectionHandlerID r.clientID

/-- Modelled from the spec: read-only lookup by (session, participant),
yielding none when the key is absent. -/
def getRemoteGW2Info : List Gw2RemoteInfo → Nat → Nat → Option Gw2Info
  | [], _, _ => none
  | e :: t, sid, cid =>
    if e.serverConnectionHandlerID = sid ∧ e.clientID = cid then some e.info
    else getRemoteGW2Info t sid cid

/-- Where a sent payload is addressed: the whole server or one client. -/
inductive SendTarget where
  | server : SendTarget
  | client : Nat → SendTarget
  deriving DecidableEq

/-- The externally visible effects a TeamSpeak callback can request. -/
inductive PluginAction where
  | checkForUpdates : PluginAction
  | updateInfoPanel : PluginAction
  | sendInfo : SendTarget → Gw2Info → PluginAction
  deriving DecidableEq

/-- True exactly on the presence transmissions among the actions. -/
def PluginAction.isSendInfo : PluginAction → Bool
  | .sendInfo _ _ => true
  | _ => false

/-- The connection states ts3plugin_onConnectStatusChangeEvent switches on;
every state other than the two handled ones falls through the switch. -/
inductive ConnectStatus where
  | disconnected : ConnectStatus
  | connection_established : ConnectStatus
  | other : ConnectStatus
  deriving DecidableEq

/-- ts3plugin_onConnectStatusChangeEvent (plugin.cpp lines 280 to 292):
on disconnect evict every record of the session, on an established
connection start an update check. -/
def onConnectStatusChangeEvent (sid : Nat) (newStatus : ConnectStatus)
    (cache : List Gw2RemoteInfo) : List Gw2RemoteInfo × List PluginAction :=
  match newStatus with
  | .disconnected => (removeAllRemoteGW2InfoRecords cache sid, [])
  | .connection_established => (cache, [PluginAction.checkForUpdates])
  | .other => (cache, [])

/-- ts3plugin_onClientKickFromServerEvent (plugin.cpp lines 294 to 297):
evict the one record of the kicked client. -/
def onClientKickFromServerEvent (sid cid : Nat)
    (cache : List Gw2RemoteInfo) : List Gw2RemoteInfo × List PluginAction :=
  (removeRemoteGW2InfoRecord cache sid cid, [])

/-- ts3plugin_onServerStopEvent (plugin.cpp lines 311 to 314): evict every
record of the stopped session. -/
def onServerStopEvent (sid : Nat)
    (cache : List Gw2RemoteInfo) : List Gw2RemoteInfo × List PluginAction :=
  (removeAllRemoteGW2InfoRecords cache sid, [])

/-- Modelled from the C standard library: atoi skips leading whitespace,
reads an optional sign and the leading run of digits, and yields zero when
no digit is present. -/
def atoiModel (s : String) : Int :=
  let cs := s.toList.dropWhile Char.isWhitespace
  let digitsVal : List Char → Int := fun l =>
    Int.ofNat ((l.takeWhile Char.isDigit).foldl (fun acc c => acc * 10 + (c.toNat - 48)) 0)
  match cs with
  | '-' :: rest => -(digitsVal rest)
  | '+' :: rest => digitsVal rest
  | _ => digitsVal cs

/-- The cast (anyID)atoi(...) of plugin.cpp: conversion of the parsed int
to the unsigned 16 bit anyID, reducing modulo 2 to the 16. -/
def anyIDofString (s : String) : Nat :=
  ((atoiModel s) % 65536).toNat

/-- The command kinds Commands::parseCommand can yield. -/
inductive CommandType where
  | CMD_NONE : CommandType
  | CMD_GW2INFO : CommandType
  | CMD_REQUESTGW2INFO : CommandType
  deriving DecidableEq

/-- ts3plugin_onPluginCommandEvent after parsing (plugin.cpp lines 318 to
355), as a function of the parsed command kind and parameter list.  The
payload decoder (the Gw2RemoteInfo constructor from a JSON string, in
gw2info.cpp) is passed in as `parseInfo`; modelled from the spec, a
malformed payload makes the decode fail and the command is dropped without
mutating the cache.  An unknown kind and a wrong parameter count break out
of the switch with no effect. -/
def onPluginCommandEvent (parseInfo : String → Option Gw2Info) (sid : Nat)
    (commandType : CommandType) (params : List String) (localInfo : Gw2Info)
    (cache : List Gw2RemoteInfo) : List Gw2RemoteInfo × List PluginAction :=
  match commandType with
  | .CMD_NONE => (cache, [])
  | .CMD_GW2INFO =>
    if params.length = 2 then
      let clientID := anyIDofString (params.getD 0 "")
      match parseInfo (params.getD 1 "") with
      | some info => (updateRemoteGW2Info cache ⟨info, sid, clientID⟩, [PluginAction.updateInfoPanel])
      | none => (cache, [])
    else (cache, [])
  | .CMD_REQUESTGW2INFO =>
    if params.length = 1 then
      (cache, [PluginAction.sendInfo (SendTarget.client (anyIDofString (params.getD 0 ""))) localInfo])
    else (cache, [])

/-- On an online tick, the loop body reduces to the online branch followed
by the transmission step. -/
theorem tick_online (cfg : Config) (s : TrackerState) (inp : TickInput)
    (hon : rawOnlineOf inp = true) :
    mumbleLinkTick cfg s inp =
      if (onlineStep cfg s inp).2 = true then
        ⟨{ (onlineStep cfg s inp).1 with lastTransmissionTime := inp.now },
         some (onlineStep cfg s inp).1.gw2Info⟩
      else ⟨(onlineStep cfg s inp).1, none⟩ := by
  simp [mumbleLinkTick, hon]

/-- On an offline tick, the loop body reduces to the offline branch
followed by the transmission step. -/
theorem tick_offline (cfg : Config) (s : TrackerState) (inp : TickInput)
    (hoff : rawOnlineOf inp = false) :
    mumbleLinkTick cfg s inp =
      if (offlineStep cfg s inp).2 = true then
        ⟨{ (offlineStep cfg s inp).1 with lastTransmissionTime := inp.now },
         some (offlineStep cfg s inp).1.gw2Info⟩
      else ⟨(offlineStep cfg s inp).1, none⟩ := by
  simp [mumbleLinkTick, hoff]

/-- The transmission step never touches the linked flag. -/
theorem tick_fst_linked (cfg : Config) (s : TrackerState) (inp : TickInput) :
    (mumbleLinkTick cfg s inp).1.linked =
      (if rawOnlineOf inp = true then onlineStep cfg s inp else offlineStep cfg s inp).1.linked := by
  simp only [mumbleLinkTick]
  split <;> split <;> rfl

/-- The transmission step never touches the transmitted baseline. -/
theorem tick_fst_prevDistancePosition (cfg : Config) (s : TrackerState) (inp : TickInput) :
    (mumbleLinkTick cfg s inp).1.prevDistancePosition =
      (if rawOnlineOf inp = true then onlineStep cfg s inp
       else offlineStep cfg s inp).1.prevDistancePosition := by
  simp only [mumbleLinkTick]
  split <;> split <;> rfl

/-- The transmission step never touches the record. -/
theorem tick_fst_gw2Info (cfg : Config) (s : TrackerState) (inp : TickInput) :
    (mumbleLinkTick cfg s inp).1.gw2Info =
      (if rawOnlineOf inp = true then onlineStep cfg s inp
       else offlineStep cfg s inp).1.gw2Info := by
  simp only [mumbleLinkTick]
  split <;> split <;> rfl

/-- The transmission step never touches the offline timestamp. -/
theorem tick_fst_lastOffline (cfg : Config) (s : TrackerState) (inp : TickInput) :
    (mumbleLinkTick cfg s inp).1.lastOffline =
      (if rawOnlineOf inp = true then onlineStep cfg s inp
       else offlineStep cfg s inp).1.lastOffline := by
  simp only [mumbleLinkTick]
  split <;> split <;> rfl

/-- A payload goes out on a tick exactly when the branch marked the record
dirty. -/
theorem tick_snd_isSome (cfg : Config) (s : TrackerState) (inp : TickInput) :
    ((mumbleLinkTick cfg s inp).2).isSome =
      (if rawOnlineOf inp = true then onlineStep cfg s inp else offlineStep cfg s inp).2 := by
  simp only [mumbleLinkTick]
  split <;> split <;> simp_all

/-- A sample configuration: debounce window 5 seconds, location threshold
10 seconds, distance threshold 2 units. -/
def cfg0 : Config := ⟨5, 10, 2⟩

/-- A tick input with the link down and every collaborator empty. -/
def inpOff (t : Int) : TickInput :=
  ⟨t, false, false, ⟨"", 0, 0, 0, 0, false⟩, ⟨0, 0, 0⟩, fun _ => none, none, fun _ _ => none⟩

/-- A tick input with the link up and every collaborator empty. -/
def inpOn (t : Int) : TickInput :=
  { inpOff t with isActive := true, isGW2 := true }

/-- A changed identity snapshot used by the concrete runs. -/
def identityA : MumbleIdentity := ⟨"Alice", 1, 10, 20, 3, false⟩

/-- A link-up tick that also carries the changed identity. -/
def inpOnId (t : Int) : TickInput :=
  { inpOn t with identity := identityA }

/-- A link-up tick that also carries a moved avatar position. -/
def inpOnPos (t : Int) (p : Vector3D) : TickInput :=
  { inpOn t with avatarPosition := p }


/-- Copying the identity fields sets the map id to the snapshot value. -/
theorem copyIdentityFields_mapId (info : Gw2Info) (idn : MumbleIdentity) :
    (copyIdentityFields info idn).mapId = idn.map_id := rfl

/-- Copying the identity fields sets the world id to the snapshot value. -/
theorem copyIdentityFields_worldId (info : Gw2Info) (idn : MumbleIdentity) :
    (copyIdentityFields info idn).worldId = idn.world_id := rfl

/-- The map lookup keeps the world id. -/
theorem resolveMapNames_worldId (inp : TickInput) (info : Gw2Info) :
    (resolveMapNames inp info).worldId = info.worldId := by
  cases h : inp.getMap info.mapId <;> simp [resolveMapNames, h]

/-- The map lookup keeps the continent position. -/
theorem resolveMapNames_continentPosition (inp : TickInput) (info : Gw2Info) :
    (resolveMapNames inp info).characterContinentPosition =
      info.characterContinentPosition := by
  cases h : inp.getMap info.mapId <;> simp [resolveMapNames, h]

/-- When the map source has no entry for the map id in the record, the
map name is the synthesized fallback. -/
theorem resolveMapNames_fallback (inp : TickInput) (info : Gw2Info)
    (h : inp.getMap info.mapId = none) :
    (resolveMapNames inp info).mapName = "Map " ++ toString info.mapId := by
  simp [resolveMapNames, h]

/-- The world lookup keeps the map name. -/
theorem resolveWorldName_mapName (inp : TickInput) (info : Gw2Info) :
    (resolveWorldName inp info).mapName = info.mapName := by
  cases h : inp.getWorldNames with
  | none => simp [resolveWorldName, h]
  | some wn => cases h2 : wn info.worldId <;> simp [resolveWorldName, h, h2]

/-- The world lookup keeps the continent position. -/
theorem resolveWorldName_continentPosition (inp : TickInput) (info : Gw2Info) :
    (resolveWorldName inp info).characterContinentPosition =
      info.characterContinentPosition := by
  cases h : inp.getWorldNames with
  | none => simp [resolveWorldName, h]
  | some wn => cases h2 : wn info.worldId <;> simp [resolveWorldName, h, h2]

/-- When the world name source fails or lacks the world id of the record,
the world name is the synthesized fallback. -/
theorem resolveWorldName_fallback (inp : TickInput) (info : Gw2Info)
    (hw : inp.getWorldNames = none ∨
      ∃ wn, inp.getWorldNames = some wn ∧ wn info.worldId = none) :
    (resolveWorldName inp info).worldName = "World " ++ toString info.worldId := by
  rcases hw with hw | ⟨wn, hw, hnone⟩
  · simp [resolveWorldName, hw]
  · simp [resolveWorldName, hw, hnone]

/-- The continent position update keeps the map name. -/
theorem resolveContinentPosition_mapName (inp : TickInput) (info : Gw2Info) (p : Vector3D) :
    (resolveContinentPosition inp info p).mapName = info.mapName := by
  cases h : inp.getMap info.mapId with
  | none => simp [resolveContinentPosition, h]
  | some m =>
    cases h2 : toContinentPosition p m.map_rect m.continent_rect <;>
      simp [resolveContinentPosition, h, h2]

/-- The continent position update keeps the world name. -/
theorem resolveContinentPosition_worldName (inp : TickInput) (info : Gw2Info) (p : Vector3D) :
    (resolveContinentPosition inp info p).worldName = info.worldName := by
  cases h : inp.getMap info.mapId with
  | none => simp [resolveContinentPosition, h]
  | some m =>
    cases h2 : toContinentPosition p m.map_rect m.continent_rect <;>
      simp [resolveContinentPosition, h, h2]

/-- When the map source has no entry for the current map, or the transform
rejects a degenerate rectangle, the continent position is kept. -/
theorem resolveContinentPosition_keeps (inp : TickInput) (info : Gw2Info) (p : Vector3D)
    (hfail : inp.getMap info.mapId = none ∨
      ∃ m, inp.getMap info.mapId = some m ∧
        toContinentPosition p m.map_rect m.continent_rect = none) :
    (resolveContinentPosition inp info p).characterContinentPosition =
      info.characterContinentPosition := by
  rcases hfail with hm | ⟨m, hm, htr⟩
  · simp [resolveContinentPosition, hm]
  · simp [resolveContinentPosition, hm, htr]

/-- The waypoint search keeps the map name. -/
theorem resolveClosestWaypoint_mapName (inp : TickInput) (info : Gw2Info) :
    (resolveClosestWaypoint inp info).mapName = info.mapName := by
  cases h : inp.getClosestWaypoint info.characterContinentPosition info.mapId <;>
    simp [resolveClosestWaypoint, h]

/-- The waypoint search keeps the world name. -/
theorem resolveClosestWaypoint_worldName (inp : TickInput) (info : Gw2Info) :
    (resolveClosestWaypoint inp info).worldName = info.worldName := by
  cases h : inp.getClosestWaypoint info.characterContinentPosition info.mapId <;>
    simp [resolveClosestWaypoint, h]

/-- The waypoint search keeps the continent position. -/
theorem resolveClosestWaypoint_continentPosition (inp : TickInput) (info : Gw2Info) :
    (resolveClosestWaypoint inp info).characterContinentPosition =
      info.characterContinentPosition := by
  cases h : inp.getClosestWaypoint info.characterContinentPosition info.mapId <;>
    simp [resolveClosestWaypoint, h]

/-- The position block keeps the map name. -/
theorem applyPosition_mapName (inp : TickInput) (info : Gw2Info) (p : Vector3D) :
    (applyPosition inp info p).mapName = info.mapName := by
  rw [applyPosition, resolveClosestWaypoint_mapName, resolveContinentPosition_mapName]

/-- The position block keeps the world name. -/
theorem applyPosition_worldName (inp : TickInput) (info : Gw2Info) (p : Vector3D) :
    (applyPosition inp info p).worldName = info.worldName := by
  rw [applyPosition, resolveClosestWaypoint_worldName, resolveContinentPosition_worldName]

/-- When the map lookup or the transform fails, the position block keeps
the continent position. -/
theorem applyPosition_keepsContinentPosition (inp : TickInput) (info : Gw2Info) (p : Vector3D)
    (hfail : inp.getMap info.mapId = none ∨
      ∃ m, inp.getMap info.mapId = some m ∧
        toContinentPosition p m.map_rect m.continent_rect = none) :
    (applyPosition inp info p).characterContinentPosition =
      info.characterContinentPosition := by
  rw [applyPosition, resolveClosestWaypoint_continentPosition,
    resolveContinentPosition_keeps inp info p hfail]

/-- When the map source fails during an identity update, the resulting map
name is the synthesized fallback for the new map id. -/
theorem applyIdentity_mapName_fallback (inp : TickInput) (info : Gw2Info)
    (idn : MumbleIdentity) (hm : inp.getMap idn.map_id = none) :
    (applyIdentity inp info idn).mapName = "Map " ++ toString idn.map_id := by
  rw [applyIdentity, resolveWorldName_mapName, resolveMapNames_fallback,
    copyIdentityFields_mapId]
  rw [copyIdentityFields_mapId]
  exact hm

/-- When the world name source fails or lacks the new world id during an
identity update, the resulting world name is the synthesized fallback. -/
theorem applyIdentity_worldName_fallback (inp : TickInput) (info : Gw2Info)
    (idn : MumbleIdentity)
    (hw : inp.getWorldNames = none ∨
      ∃ wn, inp.getWorldNames = some wn ∧ wn idn.world_id = none) :
    (applyIdentity inp info idn).worldName = "World " ++ toString idn.world_id := by
  have hid : (resolveMapNames inp (copyIdentityFields info idn)).worldId = idn.world_id := by
    rw [resolveMapNames_worldId, copyIdentityFields_worldId]
  rw [applyIdentity, resolveWorldName_fallback, hid]
  rw [hid]
  exact hw

/-- C1 counterexample: the claim says the tracker fires the linked event
only after onlineDebounceWindow of continuous true rawOnline samples, and
that a first true sample arriving right after a short false period does
not yet transition to Online.  With window 5 the run below observes a
false sample at t = 100 and a true sample at t = 102: the false period
before the first true sample is at most 2 seconds and no continuous-true
window precedes it, yet the tracker is already Online after the tick at
t = 102, because the code compares against the remembered offline
timestamp (still its initial value 0) rather than against any duration of
continuous true samples. -/
theorem c1_counterexample :
    (runTicks cfg0 initialTrackerState [inpOff 100, inpOn 102]).1.linked = true ∧
      cfg0.onlineStateTransmissionThreshold = 5 ∧
      initialTrackerState.linked = false := by
  decide

/-- C1 (amended): on a tick with rawOnline true, the tracker transitions
to Online exactly when the previous tick was false and the elapsed time
since the remembered offline timestamp (recorded at the most recent
true-to-false transition, initially the epoch, reset to the epoch while
online) is at least the debounce window; otherwise the linked flag is
unchanged.  No window of continuous true samples is required. -/
theorem c1_online_transition (cfg : Config) (s : TrackerState) (inp : TickInput)
    (hon : rawOnlineOf inp = true) :
    (mumbleLinkTick cfg s inp).1.linked =
      if s.prevIsOnline = false ∧
          cfg.onlineStateTransmissionThreshold ≤ inp.now - s.lastOffline
      then true else s.linked := by
  rw [tick_fst_linked, if_pos hon]
  rfl

/-- C1 witness: with window 5, a tracker that saw the feed go offline at
t = 100 and sees the first true sample at t = 102 does not transition. -/
theorem c1_online_transition_witness :
    (mumbleLinkTick cfg0 { initialTrackerState with lastOffline := 100 } (inpOn 102)).1.linked
      = false := by
  have h := c1_online_transition cfg0 { initialTrackerState with lastOffline := 100 }
    (inpOn 102) (by decide)
  rw [h]
  decide

/-- C2: on a tick with rawOnline false, the offline timestamp is the tick
time if the previous tick was online and the remembered value otherwise;
and if the tracker is linked and the debounce window has elapsed since
that timestamp, the tick unlinks the tracker, fully clears the presence
record (every numeric field zero, every string empty) and emits exactly
one transmission, carrying the cleared record. -/
theorem c2_offline_transition (cfg : Config) (s : TrackerState) (inp : TickInput)
    (hoff : rawOnlineOf inp = false) :
    (mumbleLinkTick cfg s inp).1.lastOffline =
        (if s.prevIsOnline = true then inp.now else s.lastOffline) ∧
      (s.linked = true →
        cfg.onlineStateTransmissionThreshold ≤
            inp.now - (if s.prevIsOnline = true then inp.now else s.lastOffline) →
        (mumbleLinkTick cfg s inp).1.linked = false ∧
          (mumbleLinkTick cfg s inp).1.gw2Info = emptyGw2Info ∧
          (mumbleLinkTick cfg s inp).2 = some emptyGw2Info) := by
  have hnot : ¬(rawOnlineOf inp = true) := by simp [hoff]
  refine ⟨?_, fun hl hth => ?_⟩
  · rw [tick_fst_lastOffline, if_neg hnot]
    simp only [offlineStep]
    split <;> split <;> rfl
  · have he : offlineStep cfg s inp =
        ⟨{ s with lastOffline := (if s.prevIsOnline = true then inp.now else s.lastOffline),
                  linked := false, prevIsOnline := false, gw2Info := emptyGw2Info }, true⟩ := by
      simp only [offlineStep]
      rw [if_pos ⟨hl, hth⟩]
    rw [tick_offline cfg s inp hoff, he]
    simp

/-- C2 witness: a linked tracker that went offline at t = 90 and is still
offline at t = 100 with window 5 unlinks, clears and transmits. -/
theorem c2_offline_transition_witness :
    (mumbleLinkTick cfg0
        { initialTrackerState with linked := true, lastOffline := 90 } (inpOff 100)).1.linked
        = false ∧
      (mumbleLinkTick cfg0
        { initialTrackerState with linked := true, lastOffline := 90 } (inpOff 100)).2
        = some emptyGw2Info := by
  have h := (c2_offline_transition cfg0
    { initialTrackerState with linked := true, lastOffline := 90 } (inpOff 100)
    (by decide)).2 rfl (by decide)
  exact ⟨h.1, h.2.2⟩

/-- C3: on an online tick with the identity unchanged and the position
changed, a transmission goes out exactly when the elapsed time since the
last transmission reaches locationTransmissionThreshold and the
displacement from the last transmitted position reaches
distanceTransmissionThreshold; with distance threshold 2, a displacement
of 1 unit never triggers one regardless of elapsed time, and a
displacement of 3 units with the time threshold elapsed triggers exactly
one (the single payload of the tick). -/
theorem c3_position_gating (cfg : Config) (s : TrackerState) (inp : TickInput)
    (hon : rawOnlineOf inp = true) (hid : inp.identity = s.prevIdentity)
    (hpos : inp.avatarPosition ≠ s.prevAvatarPosition) :
    (((mumbleLinkTick cfg s inp).2).isSome = true ↔
        (cfg.locationTransmissionThreshold ≤ inp.now - s.lastTransmissionTime ∧
          distanceAtLeast inp.avatarPosition.toVector2D s.prevDistancePosition
            cfg.distanceTransmissionThreshold = true)) ∧
      (cfg.distanceTransmissionThreshold = 2 →
        getDistanceSq inp.avatarPosition.toVector2D s.prevDistancePosition = 1 →
        (mumbleLinkTick cfg s inp).2 = none) ∧
      (cfg.distanceTransmissionThreshold = 2 →
        getDistanceSq inp.avatarPosition.toVector2D s.prevDistancePosition = 9 →
        cfg.locationTransmissionThreshold ≤ inp.now - s.lastTransmissionTime →
        ((mumbleLinkTick cfg s inp).2).isSome = true) := by
  have hiff : ((mumbleLinkTick cfg s inp).2).isSome =
      (identityDirty cfg s inp || positionDirty cfg s inp) := by
    rw [tick_snd_isSome, if_pos hon]
    rfl
  have hidd : identityDirty cfg s inp = false := by
    simp [identityDirty, hid]
  refine ⟨?_, fun hd2 hsq => ?_, fun hd2 hsq ht => ?_⟩
  · rw [hiff, hidd]
    simp [positionDirty, hpos]
  · have hda : distanceAtLeast inp.avatarPosition.toVector2D s.prevDistancePosition
        cfg.distanceTransmissionThreshold = false := by
      simp [distanceAtLeast, hd2, hsq]
      norm_num
    have hps : positionDirty cfg s inp = false := by
      simp [positionDirty, hda]
    have hnone : ((mumbleLinkTick cfg s inp).2).isSome = false := by
      rw [hiff, hidd, hps]
      rfl
    cases hopt : (mumbleLinkTick cfg s inp).2 with
    | none => rfl
    | some v => rw [hopt] at hnone; simp at hnone
  · have hda : distanceAtLeast inp.avatarPosition.toVector2D s.prevDistancePosition
        cfg.distanceTransmissionThreshold = true := by
      simp [distanceAtLeast, hd2, hsq]
      norm_num
    have hps : positionDirty cfg s inp = true := by
      simp [positionDirty, hpos, ht, hda]
    rw [hiff, hidd, hps]
    rfl

/-- C3 witness: with distance threshold 2 and location threshold 10, an
online tick at t = 100 with the avatar moved 1 unit in the plane from the
transmitted baseline emits nothing even though the time threshold has long
elapsed. -/
theorem c3_position_gating_witness :
    (mumbleLinkTick cfg0 initialTrackerState (inpOnPos 100 ⟨1, 5, 0⟩)).2 = none := by
  exact (c3_position_gating cfg0 initialTrackerState (inpOnPos 100 ⟨1, 5, 0⟩)
    (by decide) (by decide) (by decide)).2.1 rfl
    (by norm_num [inpOnPos, inpOn, inpOff, initialTrackerState, getDistanceSq,
      Vector3D.toVector2D])

/-- The continent position update changes nothing but the continent
position field. -/
theorem resolveContinentPosition_eq_update (inp : TickInput) (info : Gw2Info) (p : Vector3D) :
    ∃ cp, resolveContinentPosition inp info p =
      { info with characterContinentPosition := cp } := by
  cases h : inp.getMap info.mapId with
  | none => exact ⟨info.characterContinentPosition, by simp [resolveContinentPosition, h]⟩
  | some m =>
    cases h2 : toContinentPosition p m.map_rect m.continent_rect with
    | none =>
      exact ⟨info.characterContinentPosition, by simp [resolveContinentPosition, h, h2]⟩
    | some q => exact ⟨q, by simp [resolveContinentPosition, h, h2]⟩

/-- The waypoint search changes nothing but the three waypoint fields. -/
theorem resolveClosestWaypoint_eq_update (inp : TickInput) (info : Gw2Info) :
    ∃ wid wname wpos, resolveClosestWaypoint inp info =
      { info with waypointId := wid, waypointName := wname,
                  waypointContinentPosition := wpos } := by
  cases h : inp.getClosestWaypoint info.characterContinentPosition info.mapId with
  | none => exact ⟨0, "", ⟨0, 0⟩, by simp [resolveClosestWaypoint, h]⟩
  | some w =>
    exact ⟨w.poi_id, if w.name ≠ "" then w.name else "Waypoint " ++ toString w.poi_id,
      w.coord, by simp [resolveClosestWaypoint, h]⟩

/-- The whole position block changes nothing but the continent position
and the waypoint fields. -/
theorem applyPosition_eq_update (inp : TickInput) (info : Gw2Info) (p : Vector3D) :
    ∃ cp wid wname wpos, applyPosition inp info p =
      { info with characterContinentPosition := cp, waypointId := wid,
                  waypointName := wname, waypointContinentPosition := wpos } := by
  obtain ⟨cp, h1⟩ := resolveContinentPosition_eq_update inp info p
  obtain ⟨wid, wname, wpos, h2⟩ :=
    resolveClosestWaypoint_eq_update inp (resolveContinentPosition inp info p)
  refine ⟨cp, wid, wname, wpos, ?_⟩
  rw [applyPosition, h2, h1]

/-- C5: on every online tick where the identity snapshot changed, whether
or not the position changed too, the record is the identity block applied
to the previous record (identity, map and world fields repopulated through
the lookups), except possibly for the continent position and waypoint
fields, which only the position block owns; and a transmission goes out
exactly when the elapsed time since the last transmission reaches
locationTransmissionThreshold, with no displacement condition taking
part. -/
theorem c5_identity_update (cfg : Config) (s : TrackerState) (inp : TickInput)
    (hon : rawOnlineOf inp = true) (hid : inp.identity ≠ s.prevIdentity) :
    (∃ cp wid wname wpos,
        (mumbleLinkTick cfg s inp).1.gw2Info =
          { applyIdentity inp s.gw2Info inp.identity with
              characterContinentPosition := cp, waypointId := wid, waypointName := wname,
              waypointContinentPosition := wpos }) ∧
      (((mumbleLinkTick cfg s inp).2).isSome = true ↔
        cfg.locationTransmissionThreshold ≤ inp.now - s.lastTransmissionTime) := by
  have hg : (mumbleLinkTick cfg s inp).1.gw2Info =
      (if inp.avatarPosition ≠ s.prevAvatarPosition then
        applyPosition inp (applyIdentity inp s.gw2Info inp.identity) inp.avatarPosition
      else applyIdentity inp s.gw2Info inp.identity) := by
    rw [tick_fst_gw2Info, if_pos hon]
    simp only [onlineStep]
    rw [if_pos hid]
  constructor
  · rw [hg]
    by_cases hpos : inp.avatarPosition ≠ s.prevAvatarPosition
    · rw [if_pos hpos]
      exact applyPosition_eq_update inp (applyIdentity inp s.gw2Info inp.identity)
        inp.avatarPosition
    · rw [if_neg hpos]
      exact ⟨(applyIdentity inp s.gw2Info inp.identity).characterContinentPosition,
        (applyIdentity inp s.gw2Info inp.identity).waypointId,
        (applyIdentity inp s.gw2Info inp.identity).waypointName,
        (applyIdentity inp s.gw2Info inp.identity).waypointContinentPosition, rfl⟩
  · rw [tick_snd_isSome, if_pos hon]
    show (identityDirty cfg s inp || positionDirty cfg s inp) = true ↔ _
    simp only [identityDirty, positionDirty, Bool.or_eq_true, decide_eq_true_eq]
    constructor
    · rintro (⟨_, h⟩ | ⟨_, h, _⟩) <;> exact h
    · intro h
      exact Or.inl ⟨hid, h⟩

/-- C5 witness: an identity change at t = 100 together with a small moved
position (displacement 1, below the distance threshold 2 of cfg0)
repopulates the record through the identity block and still transmits,
because the identity trigger carries no displacement condition. -/
theorem c5_identity_update_witness :
    (∃ cp wid wname wpos,
        (mumbleLinkTick cfg0 initialTrackerState
            { inpOnId 100 with avatarPosition := ⟨1, 0, 0⟩ }).1.gw2Info =
          { applyIdentity { inpOnId 100 with avatarPosition := ⟨1, 0, 0⟩ }
              initialTrackerState.gw2Info
              ({ inpOnId 100 with avatarPosition := ⟨1, 0, 0⟩ } : TickInput).identity with
              characterContinentPosition := cp, waypointId := wid, waypointName := wname,
              waypointContinentPosition := wpos }) ∧
      ((mumbleLinkTick cfg0 initialTrackerState
          { inpOnId 100 with avatarPosition := ⟨1, 0, 0⟩ }).2).isSome = true := by
  have h := c5_identity_update cfg0 initialTrackerState
    { inpOnId 100 with avatarPosition := ⟨1, 0, 0⟩ } (by decide) (by decide)
  exact ⟨h.1, h.2.mpr (by decide)⟩

/-- C6: on an online tick with a changed identity, if the map source has
no entry for the new map id the record's map name becomes the synthesized
"Map <id>", and if the world name source fails or lacks the new world id
the world name becomes "World <id>"; both fallbacks are produced by the
tick itself, which is a total function, so the failure never escapes the
tick. -/
theorem c6_lookup_fallbacks (cfg : Config) (s : TrackerState) (inp : TickInput)
    (hon : rawOnlineOf inp = true) (hid : inp.identity ≠ s.prevIdentity) :
    (inp.getMap inp.identity.map_id = none →
        (mumbleLinkTick cfg s inp).1.gw2Info.mapName =
          "Map " ++ toString inp.identity.map_id) ∧
      ((inp.getWorldNames = none ∨
          ∃ wn, inp.getWorldNames = some wn ∧ wn inp.identity.world_id = none) →
        (mumbleLinkTick cfg s inp).1.gw2Info.worldName =
          "World " ++ toString inp.identity.world_id) := by
  have hg : (mumbleLinkTick cfg s inp).1.gw2Info =
      (if inp.avatarPosition ≠ s.prevAvatarPosition then
        applyPosition inp (applyIdentity inp s.gw2Info inp.identity) inp.avatarPosition
      else applyIdentity inp s.gw2Info inp.identity) := by
    rw [tick_fst_gw2Info, if_pos hon]
    simp only [onlineStep]
    rw [if_pos hid]
  constructor
  · intro hm
    rw [hg]
    split
    · rw [applyPosition_mapName]
      exact applyIdentity_mapName_fallback inp s.gw2Info inp.identity hm
    · exact applyIdentity_mapName_fallback inp s.gw2Info inp.identity hm
  · intro hw
    rw [hg]
    split
    · rw [applyPosition_worldName]
      exact applyIdentity_worldName_fallback inp s.gw2Info inp.identity hw
    · exact applyIdentity_worldName_fallback inp s.gw2Info inp.identity hw

/-- C6 witness: the identity change of inpOnId with both sources empty
yields the synthesized map and world names for map id 10 and world id 20. -/
theorem c6_lookup_fallbacks_witness :
    (mumbleLinkTick cfg0 initialTrackerState (inpOnId 100)).1.gw2Info.mapName =
        "Map " ++ toString (inpOnId 100).identity.map_id ∧
      (mumbleLinkTick cfg0 initialTrackerState (inpOnId 100)).1.gw2Info.worldName =
        "World " ++ toString (inpOnId 100).identity.world_id := by
  have h := c6_lookup_fallbacks cfg0 initialTrackerState (inpOnId 100) (by decide) (by decide)
  exact ⟨h.1 rfl, h.2 (Or.inl rfl)⟩

/-- C7: on an online tick with the identity unchanged and the position
changed, when the map lookup for the current map id fails or the transform
rejects the rectangle (the degenerate case), the continent position of the
record is exactly the one from before the tick. -/
theorem c7_continent_position_retained (cfg : Config) (s : TrackerState) (inp : TickInput)
    (hon : rawOnlineOf inp = true) (hid : inp.identity = s.prevIdentity)
    (hpos : inp.avatarPosition ≠ s.prevAvatarPosition)
    (hfail : inp.getMap s.gw2Info.mapId = none ∨
      ∃ m, inp.getMap s.gw2Info.mapId = some m ∧
        toContinentPosition inp.avatarPosition m.map_rect m.continent_rect = none) :
    (mumbleLinkTick cfg s inp).1.gw2Info.characterContinentPosition =
      s.gw2Info.characterContinentPosition := by
  have hg : (mumbleLinkTick cfg s inp).1.gw2Info =
      applyPosition inp s.gw2Info inp.avatarPosition := by
    rw [tick_fst_gw2Info, if_pos hon]
    simp only [onlineStep]
    rw [if_neg (show ¬(inp.identity ≠ s.prevIdentity) from by simp [hid])]
    rw [if_pos hpos]
  rw [hg]
  exact applyPosition_keepsContinentPosition inp s.gw2Info inp.avatarPosition hfail

/-- A map entry whose map rectangle has zero width, the degenerate case of
the transform. -/
def degenMapEntry : MapEntry :=
  ⟨"Degenerate", 1, "Region", 1, "Continent", ⟨0, 0, 0, 5⟩, ⟨0, 0, 100, 100⟩⟩

/-- A link-up tick whose map source always answers the degenerate map. -/
def inpOnPosDegen (t : Int) (p : Vector3D) : TickInput :=
  { inpOnPos t p with getMap := fun _ => some degenMapEntry }

/-- A tracker state that already holds a continent position for map 7. -/
def stateWithPosition : TrackerState :=
  { initialTrackerState with
      gw2Info := { emptyGw2Info with mapId := 7, characterContinentPosition := ⟨3, 4⟩ } }

/-- C7 witness: a moved position whose map lookup yields a degenerate
rectangle leaves the stored continent position untouched. -/
theorem c7_continent_position_retained_witness :
    (mumbleLinkTick cfg0 stateWithPosition
        (inpOnPosDegen 100 ⟨1, 0, 0⟩)).1.gw2Info.characterContinentPosition =
      stateWithPosition.gw2Info.characterContinentPosition := by
  exact c7_continent_position_retained cfg0 stateWithPosition (inpOnPosDegen 100 ⟨1, 0, 0⟩)
    (by decide) (by decide) (by decide)
    (Or.inr ⟨degenMapEntry, rfl, by simp [toContinentPosition, degenMapEntry, Rect.width]⟩)

/-- C10: the transmitted baseline after a tick is the new 2D position
exactly when the tick was online and the position block decided to
transmit (position changed, time threshold met, displacement threshold
met); in every other case, including suppressed position updates and
offline ticks, the baseline is unchanged, so displacement keeps
accumulating against the old baseline; and whenever the baseline moves, a
payload goes out on that same tick. -/
theorem c10_baseline_update (cfg : Config) (s : TrackerState) (inp : TickInput) :
    ((mumbleLinkTick cfg s inp).1.prevDistancePosition =
        if rawOnlineOf inp = true ∧ positionDirty cfg s inp = true
        then inp.avatarPosition.toVector2D else s.prevDistancePosition) ∧
      (rawOnlineOf inp = true → positionDirty cfg s inp = true →
        ((mumbleLinkTick cfg s inp).2).isSome = true) := by
  constructor
  · rw [tick_fst_prevDistancePosition]
    by_cases hon : rawOnlineOf inp = true
    · rw [if_pos hon]
      simp only [onlineStep]
      by_cases hpd : positionDirty cfg s inp = true
      · rw [if_pos hpd, if_pos ⟨hon, hpd⟩]
      · rw [if_neg hpd, if_neg (by tauto)]
    · rw [if_neg hon, if_neg (by tauto)]
      simp only [offlineStep]
      repeat' split
      all_goals rfl
  · intro hon hpd
    rw [tick_snd_isSome, if_pos hon]
    show (identityDirty cfg s inp || positionDirty cfg s inp) = true
    rw [hpd, Bool.or_true]

/-- C10 witness: a 3 unit displacement with both thresholds met moves the
baseline and the same tick transmits. -/
theorem c10_baseline_update_witness :
    ((mumbleLinkTick cfg0 initialTrackerState (inpOnPos 100 ⟨3, 0, 0⟩)).2).isSome = true := by
  apply (c10_baseline_update cfg0 initialTrackerState (inpOnPos 100 ⟨3, 0, 0⟩)).2 (by decide)
  norm_num [positionDirty, inpOnPos, inpOn, inpOff, initialTrackerState, distanceAtLeast,
    getDistanceSq, Vector3D.toVector2D, cfg0]

/-- After bulk eviction of a session, every lookup in that session fails. -/
theorem getRemote_removeAll_self (c : List Gw2RemoteInfo) (sid cid' : Nat) :
    getRemoteGW2Info (removeAllRemoteGW2InfoRecords c sid) sid cid' = none := by
  induction c with
  | nil => rfl
  | cons e t ih =>
    by_cases h1 : e.serverConnectionHandlerID = sid
    · simp [removeAllRemoteGW2InfoRecords, h1, ih]
    · simp [removeAllRemoteGW2InfoRecords, h1, getRemoteGW2Info, ih]

/-- Bulk eviction of one session leaves lookups in other sessions
unchanged. -/
theorem getRemote_removeAll_other (c : List Gw2RemoteInfo) (sid sid' cid' : Nat)
    (h : sid' ≠ sid) :
    getRemoteGW2Info (removeAllRemoteGW2InfoRecords c sid) sid' cid' =
      getRemoteGW2Info c sid' cid' := by
  induction c with
  | nil => rfl
  | cons e t ih =>
    have hss : ¬(sid = sid') := fun hc => h hc.symm
    by_cases h1 : e.serverConnectionHandlerID = sid
    · simp [removeAllRemoteGW2InfoRecords, h1, getRemoteGW2Info, hss, ih]
    · by_cases hp : e.serverConnectionHandlerID = sid' ∧ e.clientID = cid'
      · simp [removeAllRemoteGW2InfoRecords, h1, getRemoteGW2Info, hp, h]
      · simp [removeAllRemoteGW2InfoRecords, h1, getRemoteGW2Info, hp, ih]

/-- Bulk eviction removes exactly the records of the given session, as
observed through the lookup. -/
theorem getRemote_removeAll (c : List Gw2RemoteInfo) (sid sid' cid' : Nat) :
    getRemoteGW2Info (removeAllRemoteGW2InfoRecords c sid) sid' cid' =
      if sid' = sid then none else getRemoteGW2Info c sid' cid' := by
  by_cases h3 : sid' = sid
  · subst h3
    rw [if_pos rfl]
    exact getRemote_removeAll_self c sid' cid'
  · rw [if_neg h3]
    exact getRemote_removeAll_other c sid sid' cid' h3

/-- After single eviction of a key, the lookup of that key fails. -/
theorem getRemote_removeOne_self (c : List Gw2RemoteInfo) (sid cid : Nat) :
    getRemoteGW2Info (removeRemoteGW2InfoRecord c sid cid) sid cid = none := by
  induction c with
  | nil => rfl
  | cons e t ih =>
    by_cases h1 : e.serverConnectionHandlerID = sid ∧ e.clientID = cid
    · simp [removeRemoteGW2InfoRecord, h1, ih]
    · simp [removeRemoteGW2InfoRecord, h1, getRemoteGW2Info, ih]

/-- Single eviction of one key leaves lookups of other keys unchanged. -/
theorem getRemote_removeOne_other (c : List Gw2RemoteInfo) (sid cid sid' cid' : Nat)
    (h : ¬(sid' = sid ∧ cid' = cid)) :
    getRemoteGW2Info (removeRemoteGW2InfoRecord c sid cid) sid' cid' =
      getRemoteGW2Info c sid' cid' := by
  induction c with
  | nil => rfl
  | cons e t ih =>
    have hsym : ¬(sid = sid' ∧ cid = cid') := fun hc => h ⟨hc.1.symm, hc.2.symm⟩
    by_cases h1 : e.serverConnectionHandlerID = sid ∧ e.clientID = cid
    · simp [removeRemoteGW2InfoRecord, h1, getRemoteGW2Info, hsym, ih]
    · by_cases hp : e.serverConnectionHandlerID = sid' ∧ e.clientID = cid'
      · simp [removeRemoteGW2InfoRecord, h1, getRemoteGW2Info, hp, h]
      · simp [removeRemoteGW2InfoRecord, h1, getRemoteGW2Info, hp, ih]

/-- Single eviction removes exactly the record of the given key, as
observed through the lookup. -/
theorem getRemote_removeOne (c : List Gw2RemoteInfo) (sid cid sid' cid' : Nat) :
    getRemoteGW2Info (removeRemoteGW2InfoRecord c sid cid) sid' cid' =
      if sid' = sid ∧ cid' = cid then none else getRemoteGW2Info c sid' cid' := by
  by_cases h3 : sid' = sid ∧ cid' = cid
  · rw [if_pos h3, h3.1, h3.2]
    exact getRemote_removeOne_self c sid cid
  · rw [if_neg h3]
    exact getRemote_removeOne_other c sid cid sid' cid' h3

/-- C4 counterexample: the claim says a session-established event triggers
an immediate presence broadcast of the local record.  The handler for the
established status only starts an update check: its action list is exactly
the update check and contains no presence transmission at all. -/
theorem c4_counterexample :
    (onConnectStatusChangeEvent 1 ConnectStatus.connection_established []).2 =
        [PluginAction.checkForUpdates] ∧
      ((onConnectStatusChangeEvent 1 ConnectStatus.connection_established []).2.any
          PluginAction.isSendInfo) = false := by
  decide

/-- C4 (amended): on a session-disconnect event (and likewise on server
stop) every cached record of that session is evicted and lookups in other
sessions are untouched; on a client kick exactly the record keyed by that
(session, participant) pair is evicted; on a session-established event the
cache is untouched and the handler triggers an update check, not a
presence broadcast. -/
theorem c4_session_events (sid cid sid' cid' : Nat) (cache : List Gw2RemoteInfo) :
    (getRemoteGW2Info (onConnectStatusChangeEvent sid ConnectStatus.disconnected cache).1
          sid' cid' =
        if sid' = sid then none else getRemoteGW2Info cache sid' cid') ∧
      (onConnectStatusChangeEvent sid ConnectStatus.disconnected cache).2 = [] ∧
      (getRemoteGW2Info (onClientKickFromServerEvent sid cid cache).1 sid' cid' =
        if sid' = sid ∧ cid' = cid then none else getRemoteGW2Info cache sid' cid') ∧
      (getRemoteGW2Info (onServerStopEvent sid cache).1 sid' cid' =
        if sid' = sid then none else getRemoteGW2Info cache sid' cid') ∧
      (onConnectStatusChangeEvent sid ConnectStatus.connection_established cache).1 = cache ∧
      (onConnectStatusChangeEvent sid ConnectStatus.connection_established cache).2 =
        [PluginAction.checkForUpdates] := by
  exact ⟨getRemote_removeAll cache sid sid' cid', rfl,
    getRemote_removeOne cache sid cid sid' cid',
    getRemote_removeAll cache sid sid' cid', rfl, rfl⟩

/-- C8: a parsed command whose kind is unknown, or whose parameter count
is not 2 for a presence update or not 1 for a presence request, leaves the
peer cache untouched and requests no action at all; the handler is a total
function, so nothing escapes the decode boundary. -/
theorem c8_malformed_noop (parseInfo : String → Option Gw2Info) (sid : Nat)
    (ct : CommandType) (params : List String) (localInfo : Gw2Info)
    (cache : List Gw2RemoteInfo)
    (h : ct = CommandType.CMD_NONE ∨
      (ct = CommandType.CMD_GW2INFO ∧ params.length ≠ 2) ∨
      (ct = CommandType.CMD_REQUESTGW2INFO ∧ params.length ≠ 1)) :
    onPluginCommandEvent parseInfo sid ct params localInfo cache = (cache, []) := by
  rcases h with h | ⟨h, hl⟩ | ⟨h, hl⟩
  · subst h
    rfl
  · subst h
    simp only [onPluginCommandEvent]
    rw [if_neg hl]
  · subst h
    simp only [onPluginCommandEvent]
    rw [if_neg hl]

/-- C8 witness: a presence update with a single parameter is dropped with
no cache mutation and no action. -/
theorem c8_malformed_noop_witness :
    onPluginCommandEvent (fun _ => none) 1 CommandType.CMD_GW2INFO ["5"] emptyGw2Info []
      = ([], []) := by
  exact c8_malformed_noop (fun _ => none) 1 CommandType.CMD_GW2INFO ["5"] emptyGw2Info []
    (Or.inr (Or.inl ⟨rfl, by decide⟩))

/-- C9: a well formed presence request with one parameter leaves the cache
untouched and requests exactly one transmission of the current local
record, addressed to the client parsed from the parameter, not to the
whole server. -/
theorem c9_request_reply (parseInfo : String → Option Gw2Info) (sid : Nat) (p : String)
    (localInfo : Gw2Info) (cache : List Gw2RemoteInfo) :
    onPluginCommandEvent parseInfo sid CommandType.CMD_REQUESTGW2INFO [p] localInfo cache =
      (cache, [PluginAction.sendInfo (SendTarget.client (anyIDofString p)) localInfo]) := by
  simp [onPluginCommandEvent]
